import Mathlib

/-!
Verification development for the NPA chaincode workflow engine
(`npa_chaincode/utils.py`, `npa_chaincode/state.py`, `npa_chaincode/chaincode.py`,
`backend/auth.py`).

Timestamps are modelled by an abstract clock `clock : Nat → Nat`: the engine
keeps a call counter, and the k-th call of `datetime.utcnow()` returns
`clock k`.  Strings are Lean `String`s; the ledger is an association list with
first-match lookup, so consing a pair models an overwriting `put_state`.
-/

namespace NPA

/-! ### utils.py : constants -/

def TASK_STATUS_CREATED : String := "CREATED"

def TASK_STATUS_IN_PROGRESS : String := "IN_PROGRESS"

def TASK_STATUS_COMPLETED : String := "COMPLETED"

def TASK_STATUS_CANCELLED : String := "CANCELLED"

/-- `VALID_TASK_STATUSES` from utils.py (four members; `CONFIRMED` is absent). -/
def VALID_TASK_STATUSES : List String :=
  [TASK_STATUS_CREATED, TASK_STATUS_IN_PROGRESS, TASK_STATUS_COMPLETED, TASK_STATUS_CANCELLED]

def KEY_PREFIX_TASK : String := "TASK"

def KEY_PREFIX_DOCUMENT : String := "DOC"

/-- `validate_status` from utils.py: membership in `VALID_TASK_STATUSES`. -/
def validate_status (status : String) : Bool :=
  VALID_TASK_STATUSES.contains status

/-! ### utils.py : string sanitisation (`sanitize_string`, Python `str.strip`) -/

/-- The ASCII whitespace characters stripped by Python's `str.strip()`. -/
def isPySpace (c : Char) : Bool :=
  c == ' ' || c == '\t' || c == '\n' || c == '\r' || c == '\x0b' || c == '\x0c'

def stripL (l : List Char) : List Char := l.dropWhile isPySpace

def stripR (l : List Char) : List Char := (l.reverse.dropWhile isPySpace).reverse

/-- Python `str.strip()`: remove leading and trailing whitespace. -/
def pyStrip (s : String) : String := ⟨stripR (stripL s.data)⟩

/-- `sanitize_string(value)` from utils.py with no `max_length`: `str(value).strip()`. -/
def sanitize_string (value : String) : String := pyStrip value

/-- Python `str.upper()` restricted to the ASCII arguments the engine receives. -/
def pyUpper (s : String) : String := ⟨s.data.map Char.toUpper⟩

/-! ### utils.py : key space -/

/-- `create_task_key(task_id) = f"{KEY_PREFIX_TASK}_{task_id}"`. -/
def create_task_key (task_id : String) : String :=
  KEY_PREFIX_TASK ++ "_" ++ task_id

/-- `create_document_key(task_id, document_id) = f"{KEY_PREFIX_DOCUMENT}_{task_id}_{document_id}"`. -/
def create_document_key (task_id document_id : String) : String :=
  KEY_PREFIX_DOCUMENT ++ "_" ++ task_id ++ "_" ++ document_id

/-! ### utils.py : validators.  Both return the first error message, or `none`
when validation passes.  Python's test `not value or not str(value).strip()`
on a string is equivalent to `strip value = ""`. -/

def validate_task_data (task_id title description assignee creator : String) : Option String :=
  if pyStrip task_id = "" then some "Поле task_id не может быть пустым"
  else if pyStrip title = "" then some "Поле title не может быть пустым"
  else if pyStrip description = "" then some "Поле description не может быть пустым"
  else if pyStrip assignee = "" then some "Поле assignee не может быть пустым"
  else if pyStrip creator = "" then some "Поле creator не может быть пустым"
  else none

def validate_document_version_data (version content_hash uploaded_by : String) : Option String :=
  if pyStrip version = "" then some "Поле version не может быть пустым"
  else if pyStrip content_hash = "" then some "Поле content_hash не может быть пустым"
  else if pyStrip uploaded_by = "" then some "Поле uploaded_by не может быть пустым"
  else none

/-! ### Data model (the task aggregate stored in the ledger) -/

/-- Document metadata: an open string-to-string map (JSON object). -/
abbrev Meta := List (String × String)

structure DocumentVersion where
  document_id : String
  version : String
  content_hash : String
  uploaded_by : String
  uploaded_at : Nat
  metadata : Meta
deriving DecidableEq, Repr

structure Document where
  document_id : String
  created_at : Nat
  versions : List DocumentVersion
deriving DecidableEq, Repr

structure Task where
  task_id : String
  title : String
  description : String
  assignee : String
  creator : String
  status : String
  created_at : Nat
  updated_at : Nat
  updated_by : Option String
  documents : List Document
deriving DecidableEq, Repr

/-! ### Engine state: the ledger (through `StateManager`), the write log, and
the `utcnow` call counter. -/

structure EngineState where
  ledger : List (String × Task)
  log : List (String × Task)
  counter : Nat
deriving DecidableEq, Repr

/-- First-match association-list lookup (the ledger read through
`StateManager.get_state` at the task-record level). -/
def lget : List (String × Task) → String → Option Task
  | [], _ => none
  | (k, v) :: rest, key => if k = key then some v else lget rest key

/-- `StateManager.put_state`: overwrite the key (cons shadows under `lget`)
and record the write in the log. -/
def put_state (s : EngineState) (key : String) (value : Task) : EngineState :=
  { s with ledger := (key, value) :: s.ledger, log := s.log ++ [(key, value)] }

def initState : EngineState := { ledger := [], log := [], counter := 0 }

/-! ### utils.py : `format_response` -/

inductive RespData where
  | taskData (task : Task)
  | statusUpdate (task : Task) (old_status new_status : String)
  | docAdd (task : Task) (document_version : DocumentVersion)
  | docVersions (task_id document_id : String) (versions : List DocumentVersion) (total_versions : Nat)
deriving DecidableEq, Repr

structure Response where
  success : Bool
  timestamp : Nat
  data : Option RespData
  error : Option String
deriving DecidableEq, Repr

/-- `format_response(success, data, error)`; `now` is the `utcnow` value used
for the envelope timestamp. -/
def format_response (now : Nat) (success : Bool) (data : Option RespData)
    (error : Option String) : Response :=
  if success then ⟨true, now, data, none⟩
  else ⟨false, now, none, some (error.getD "Неизвестная ошибка")⟩

/-! ### chaincode.py : the five engine operations.  Each takes the clock and
the current state and returns the response envelope and the new state. -/

/-- `NPAChaincode.create_task`. -/
def create_task (clock : Nat → Nat) (s : EngineState)
    (task_id title description assignee creator : String) : Response × EngineState :=
  match validate_task_data task_id title description assignee creator with
  | some err => (format_response (clock s.counter) false none (some err), s)
  | none =>
    let task_id := sanitize_string task_id
    let title := sanitize_string title
    let description := sanitize_string description
    let assignee := sanitize_string assignee
    let creator := sanitize_string creator
    let task_key := create_task_key task_id
    match lget s.ledger task_key with
    | some _ =>
      (format_response (clock s.counter) false none
        (some ("Задача с ID " ++ task_id ++ " уже существует")), s)
    | none =>
      let task : Task :=
        { task_id := task_id, title := title, description := description,
          assignee := assignee, creator := creator,
          status := TASK_STATUS_CREATED,
          created_at := clock s.counter,
          updated_at := clock (s.counter + 1),
          updated_by := none,
          documents := [] }
      let s' := put_state { s with counter := s.counter + 2 } task_key task
      (format_response (clock s'.counter) true (some (.taskData task)) none, s')

/-- `NPAChaincode.update_task_status`. -/
def update_task_status (clock : Nat → Nat) (s : EngineState)
    (task_id new_status updated_by : String) : Response × EngineState :=
  if task_id = "" ∨ new_status = "" ∨ updated_by = "" then
    (format_response (clock s.counter) false none
      (some "Все параметры обязательны: task_id, new_status, updated_by"), s)
  else
    let task_id := sanitize_string task_id
    let new_status := pyUpper (sanitize_string new_status)
    let updated_by := sanitize_string updated_by
    if validate_status new_status then
      match lget s.ledger (create_task_key task_id) with
      | none =>
        (format_response (clock s.counter) false none
          (some ("Задача с ID " ++ task_id ++ " не найдена")), s)
      | some task =>
        let old_status := task.status
        let task' :=
          { task with
            status := new_status,
            updated_at := clock s.counter,
            updated_by := some updated_by }
        let s' := put_state { s with counter := s.counter + 1 } (create_task_key task_id) task'
        (format_response (clock s'.counter) true
          (some (.statusUpdate task' old_status new_status)) none, s')
    else
      (format_response (clock s.counter) false none
        (some ("Недопустимый статус: " ++ new_status ++
          ". Допустимые значения: CREATED, IN_PROGRESS, COMPLETED, CANCELLED, CONFIRMED")), s)

/-- Append a version to the first document with the given id (the linear scan
over `task["documents"]`); `none` when no document matches. -/
def addVersionToDocs : List Document → String → DocumentVersion → Option (List Document)
  | [], _, _ => none
  | doc :: rest, did, dv =>
    if doc.document_id = did then
      some ({ doc with versions := doc.versions ++ [dv] } :: rest)
    else
      match addVersionToDocs rest did dv with
      | some rest' => some (doc :: rest')
      | none => none

/-- `NPAChaincode.add_document_version`.  `metadata = none` models Python
`None` (downgraded to the empty map). -/
def add_document_version (clock : Nat → Nat) (s : EngineState)
    (task_id document_id version content_hash uploaded_by : String)
    (metadata : Option Meta) : Response × EngineState :=
  match validate_document_version_data version content_hash uploaded_by with
  | some err => (format_response (clock s.counter) false none (some err), s)
  | none =>
    let task_id := sanitize_string task_id
    let document_id := sanitize_string document_id
    let version := sanitize_string version
    let content_hash := sanitize_string content_hash
    let uploaded_by := sanitize_string uploaded_by
    let md := metadata.getD []
    match lget s.ledger (create_task_key task_id) with
    | none =>
      (format_response (clock s.counter) false none
        (some ("Задача с ID " ++ task_id ++ " не найдена")), s)
    | some task =>
      let dv : DocumentVersion :=
        { document_id := document_id, version := version,
          content_hash := content_hash, uploaded_by := uploaded_by,
          uploaded_at := clock s.counter, metadata := md }
      match addVersionToDocs task.documents document_id dv with
      | some docs' =>
        let task' :=
          { task with
            documents := docs',
            updated_at := clock (s.counter + 1) }
        let s' := put_state { s with counter := s.counter + 2 } (create_task_key task_id) task'
        (format_response (clock s'.counter) true (some (.docAdd task' dv)) none, s')
      | none =>
        let newDoc : Document :=
          { document_id := document_id, created_at := clock (s.counter + 1),
            versions := [dv] }
        let task' :=
          { task with
            documents := task.documents ++ [newDoc],
            updated_at := clock (s.counter + 2) }
        let s' := put_state { s with counter := s.counter + 3 } (create_task_key task_id) task'
        (format_response (clock s'.counter) true (some (.docAdd task' dv)) none, s')

/-- The linear scan of `get_document_versions` looking up a document id. -/
def findDoc : List Document → String → Option Document
  | [], _ => none
  | doc :: rest, did => if doc.document_id = did then some doc else findDoc rest did

/-- `NPAChaincode.get_document_versions` (read-only). -/
def get_document_versions (clock : Nat → Nat) (s : EngineState)
    (task_id document_id : String) : Response × EngineState :=
  if task_id = "" ∨ document_id = "" then
    (format_response (clock s.counter) false none
      (some "Оба параметра обязательны: task_id, document_id"), s)
  else
    let task_id := sanitize_string task_id
    let document_id := sanitize_string document_id
    match lget s.ledger (create_task_key task_id) with
    | none =>
      (format_response (clock s.counter) false none
        (some ("Задача с ID " ++ task_id ++ " не найдена")), s)
    | some task =>
      match findDoc task.documents document_id with
      | none =>
        (format_response (clock s.counter) false none
          (some ("Документ с ID " ++ document_id ++ " не найден в задаче " ++ task_id)), s)
      | some document =>
        (format_response (clock s.counter) true
          (some (.docVersions task_id document_id document.versions document.versions.length))
          none, s)

/-- `NPAChaincode.get_task` (read-only). -/
def get_task (clock : Nat → Nat) (s : EngineState) (task_id : String) :
    Response × EngineState :=
  if task_id = "" then
    (format_response (clock s.counter) false none (some "task_id обязателен"), s)
  else
    let task_id := sanitize_string task_id
    match lget s.ledger (create_task_key task_id) with
    | none =>
      (format_response (clock s.counter) false none
        (some ("Задача с ID " ++ task_id ++ " не найдена")), s)
    | some task =>
      (format_response (clock s.counter) true (some (.taskData task)) none, s)

/-! ### chaincode.py : the dispatcher `invoke_chaincode`.  `parseMeta` stands
for `parse_metadata` (JSON decoding is external to the repository). -/

def invoke_chaincode (clock : Nat → Nat) (parseMeta : String → Meta)
    (s : EngineState) (function : String) (args : List String) : Response × EngineState :=
  if function = "createTask" then
    if args.length ≠ 5 then
      (format_response (clock s.counter) false none
        (some "Неверное количество аргументов. Ожидается: task_id, title, description, assignee, creator"), s)
    else
      create_task clock s (args.getD 0 "") (args.getD 1 "") (args.getD 2 "")
        (args.getD 3 "") (args.getD 4 "")
  else if function = "updateTaskStatus" then
    if args.length ≠ 3 then
      (format_response (clock s.counter) false none
        (some "Неверное количество аргументов. Ожидается: task_id, new_status, updated_by"), s)
    else
      update_task_status clock s (args.getD 0 "") (args.getD 1 "") (args.getD 2 "")
  else if function = "addDocumentVersion" then
    if args.length < 5 then
      (format_response (clock s.counter) false none
        (some "Неверное количество аргументов. Ожидается: task_id, document_id, version, content_hash, uploaded_by, [metadata_json]"), s)
    else
      let metadata := if args.length > 5 then some (parseMeta (args.getD 5 "")) else none
      add_document_version clock s (args.getD 0 "") (args.getD 1 "") (args.getD 2 "")
        (args.getD 3 "") (args.getD 4 "") metadata
  else if function = "getDocumentVersions" then
    if args.length ≠ 2 then
      (format_response (clock s.counter) false none
        (some "Неверное количество аргументов. Ожидается: task_id, document_id"), s)
    else
      get_document_versions clock s (args.getD 0 "") (args.getD 1 "")
  else if function = "getTask" then
    if args.length ≠ 1 then
      (format_response (clock s.counter) false none
        (some "Неверное количество аргументов. Ожидается: task_id"), s)
    else
      get_task clock s (args.getD 0 "")
  else
    (format_response (clock s.counter) false none
      (some ("Неизвестная функция: " ++ function)), s)

/-! ### backend/auth.py : the authorization matrix.  `UserRole` and
`Permission` are Python `str` enums, so roles and permissions are modelled by
their underlying string values. -/

/-- `ROLE_PERMISSIONS` from backend/auth.py, keyed by the role enum values. -/
def ROLE_PERMISSIONS : List (String × List String) :=
  [("юрист", ["add_document_version", "view_task", "view_documents"]),
   ("эксперт", ["confirm_task", "view_task", "view_documents"]),
   ("модератор", ["update_task_status", "view_task", "view_documents"]),
   ("admin", ["create_task", "update_task_status", "add_document_version",
              "confirm_task", "view_task", "view_documents"])]

/-- `dict.get(user_role, [])` over `ROLE_PERMISSIONS`. -/
def lookupPerms : List (String × List String) → String → List String
  | [], _ => []
  | (r, ps) :: rest, role => if r = role then ps else lookupPerms rest role

/-- `has_permission(user_role, permission)` from backend/auth.py: ADMIN
short-circuits to `True`; otherwise membership in the role's table entry. -/
def has_permission (user_role permission : String) : Bool :=
  if user_role = "admin" then true
  else (lookupPerms ROLE_PERMISSIONS user_role).contains permission

/-! ### state.py : `StateManager.get_state` at the byte level.  Stored values
are byte lists; `decode` stands for `json.loads(bytes.decode("utf-8"))`,
returning `none` exactly when Python would raise (the `except` branches). -/

def StateManager.get_state {α : Type} (decode : List Nat → Option α)
    (stub_get : String → Option (List Nat)) (key : String) : Option α :=
  match stub_get key with
  | none => none
  | some state_bytes =>
    if state_bytes.length = 0 then none
    else
      match decode state_bytes with
      | none => none
      | some state_dict => some state_dict

/-! ### Operation sequences (for reachability invariants) -/

inductive Op where
  | createTask (task_id title description assignee creator : String)
  | updateTaskStatus (task_id new_status updated_by : String)
  | addDocumentVersion (task_id document_id version content_hash uploaded_by : String)
      (metadata : Option Meta)
  | getDocumentVersions (task_id document_id : String)
  | getTask (task_id : String)

/-- The state transformation of one engine invocation. -/
def applyOp (clock : Nat → Nat) (s : EngineState) : Op → EngineState
  | .createTask a b c d e => (create_task clock s a b c d e).2
  | .updateTaskStatus a b c => (update_task_status clock s a b c).2
  | .addDocumentVersion a b c d e m => (add_document_version clock s a b c d e m).2
  | .getDocumentVersions a b => (get_document_versions clock s a b).2
  | .getTask a => (get_task clock s a).2

/-- Run a sequence of engine operations from a state. -/
def runOps (clock : Nat → Nat) (s : EngineState) : List Op → EngineState
  | [] => s
  | op :: ops => runOps clock (applyOp clock s op) ops

/-! ### Shared concrete example state -/

def taskT1 : Task :=
  { task_id := "T1", title := "t", description := "d", assignee := "a",
    creator := "c", status := TASK_STATUS_CREATED, created_at := 0,
    updated_at := 1, updated_by := none, documents := [] }

def stateT1 : EngineState :=
  { ledger := [("TASK_T1", taskT1)], log := [("TASK_T1", taskT1)], counter := 2 }

/-! ### Claims -/

/-- C1: the spec says the five statuses CREATED, IN_PROGRESS, COMPLETED,
CANCELLED, CONFIRMED are accepted after case-insensitive uppercase
normalisation.  The code's `VALID_TASK_STATUSES` omits CONFIRMED, so
`update_task_status` rejects it — even though the rejection message itself
lists CONFIRMED among the allowed values, and the backend's confirm endpoint
invokes this very operation with status CONFIRMED.  At the failing input the
engine returns the self-contradictory `InvalidStatus` error and leaves the
stored task unchanged. -/
theorem update_task_status_rejects_confirmed :
    validate_status "CONFIRMED" = false ∧
    (update_task_status (fun n => n) stateT1 "T1" "confirmed" "expert1").1.success = false ∧
    (update_task_status (fun n => n) stateT1 "T1" "confirmed" "expert1").1.error =
      some "Недопустимый статус: CONFIRMED. Допустимые значения: CREATED, IN_PROGRESS, COMPLETED, CANCELLED, CONFIRMED" ∧
    (update_task_status (fun n => n) stateT1 "T1" "confirmed" "expert1").2 = stateT1 ∧
    lget stateT1.ledger "TASK_T1" = some taskT1 :=
  ⟨rfl, rfl, rfl, rfl, rfl⟩

/-- C3 counterexample: `create_document_key` is not injective when a
caller-supplied id contains the delimiter: the distinct pairs ("a_b","c")
and ("a","b_c") derive the same key "DOC_a_b_c". -/
theorem create_document_key_collision :
    create_document_key "a_b" "c" = create_document_key "a" "b_c" ∧
    ¬ (("a_b" : String) = "a" ∧ ("c" : String) = "b_c") := by
  refine ⟨rfl, ?_⟩
  intro h
  exact absurd h.1 (by decide)

/-- Splitting at a separator absent from both prefixes is unambiguous. -/
theorem sep_split {a b c d : List Char} (ha : '_' ∉ a) (hb : '_' ∉ b)
    (h : a ++ '_' :: c = b ++ '_' :: d) : a = b ∧ c = d := by
  induction a generalizing b with
  | nil =>
    cases b with
    | nil => simpa using h
    | cons x b' =>
      simp only [List.nil_append, List.cons_append, List.cons.injEq] at h
      exact absurd (h.1 ▸ List.mem_cons_self x b') hb
  | cons x a' ih =>
    cases b with
    | nil =>
      simp only [List.cons_append, List.nil_append, List.cons.injEq] at h
      exact absurd (h.1 ▸ List.mem_cons_self x a') ha
    | cons y b' =>
      simp only [List.cons_append, List.cons.injEq] at h
      have ha' : '_' ∉ a' := fun hm => ha (List.mem_cons_of_mem x hm)
      have hb' : '_' ∉ b' := fun hm => hb (List.mem_cons_of_mem y hm)
      obtain ⟨h1, h2⟩ := ih ha' hb' h.2
      exact ⟨by rw [h.1, h1], h2⟩

theorem create_task_key_data (i : String) :
    (create_task_key i).data = 'T' :: 'A' :: 'S' :: 'K' :: '_' :: i.data := rfl

theorem create_document_key_data (t d : String) :
    (create_document_key t d).data =
      'D' :: 'O' :: 'C' :: '_' :: (t.data ++ '_' :: d.data) := by
  show ("DOC" ++ "_" ++ t ++ "_" ++ d).data = _
  simp [String.data_append]

/-- C3 (amended): `taskKey` is injective; no `taskKey` output ever equals a
`documentKey` output (prefix discipline); and `documentKey` is injective on
pairs whose taskId is free of the delimiter character — but not on arbitrary
delimiter-containing ids (see the counterexample). -/
theorem key_mappings_separation :
    (∀ i j : String, create_task_key i = create_task_key j → i = j) ∧
    (∀ i t d : String, create_task_key i ≠ create_document_key t d) ∧
    (∀ t d t' d' : String, '_' ∉ t.data → '_' ∉ t'.data →
      create_document_key t d = create_document_key t' d' → t = t' ∧ d = d') := by
  refine ⟨?_, ?_, ?_⟩
  · intro i j h
    have h' := congrArg String.data h
    rw [create_task_key_data, create_task_key_data] at h'
    exact String.ext (by simpa using h')
  · intro i t d h
    have h' := congrArg String.data h
    rw [create_task_key_data, create_document_key_data] at h'
    simp at h'
  · intro t d t' d' ht ht' h
    have h' := congrArg String.data h
    rw [create_document_key_data, create_document_key_data] at h'
    simp only [List.cons.injEq, true_and] at h'
    obtain ⟨h1, h2⟩ := sep_split ht ht' h'
    exact ⟨String.ext h1, String.ext h2⟩

theorem key_mappings_separation_witness :
    ('_' ∉ ("ta" : String).data) ∧ (("ta" : String) = "ta" ∧ ("db" : String) = "db") :=
  ⟨by decide, key_mappings_separation.2.2 "ta" "db" "ta" "db" (by decide) (by decide) rfl⟩

/-- C8: `has_permission` is total over all (role, operation) string pairs;
any role other than the four table keys receives no permission at all
(deny-by-default), and the admin role is granted every operation — including
operations that do not appear in any table entry (the short-circuit is taken
before the table is consulted). -/
theorem has_permission_total_deny_by_default :
    (∀ role perm : String,
      role ≠ "юрист" → role ≠ "эксперт" → role ≠ "модератор" → role ≠ "admin" →
      has_permission role perm = false) ∧
    (∀ perm : String, has_permission "admin" perm = true) := by
  constructor
  · intro role perm h1 h2 h3 h4
    simp only [has_permission, if_neg h4, lookupPerms, ROLE_PERMISSIONS]
    rw [if_neg (fun h => h1 h.symm), if_neg (fun h => h2 h.symm),
      if_neg (fun h => h3 h.symm), if_neg (fun h => h4 h.symm)]
    rfl
  · intro perm
    rfl

theorem has_permission_total_deny_by_default_witness :
    (("guest" : String) ≠ "юрист" ∧ ("guest" : String) ≠ "эксперт" ∧
      ("guest" : String) ≠ "модератор" ∧ ("guest" : String) ≠ "admin") ∧
    has_permission "guest" "view_task" = false ∧
    has_permission "admin" "purge_ledger" = true :=
  ⟨⟨by decide, by decide, by decide, by decide⟩,
    has_permission_total_deny_by_default.1 "guest" "view_task"
      (by decide) (by decide) (by decide) (by decide),
    has_permission_total_deny_by_default.2 "purge_ledger"⟩

/-- C9: `StateManager.get_state` returns `none` when the key was never
written or was deleted (absent or empty stored bytes), and also returns
`none` — instead of raising — when the stored bytes fail to decode as JSON:
a malformed record is indistinguishable from an absent one. -/
theorem get_state_fail_soft {α : Type} (decode : List Nat → Option α)
    (stub_get : String → Option (List Nat)) (key : String) :
    (stub_get key = none → StateManager.get_state decode stub_get key = none) ∧
    (stub_get key = some [] → StateManager.get_state decode stub_get key = none) ∧
    (∀ b, stub_get key = some b → decode b = none →
      StateManager.get_state decode stub_get key = none) := by
  refine ⟨?_, ?_, ?_⟩
  · intro h
    simp [StateManager.get_state, h]
  · intro h
    simp [StateManager.get_state, h]
  · intro b hb hd
    rcases Nat.eq_zero_or_pos b.length with hl | hl
    · simp [StateManager.get_state, hb, hl]
    · simp [StateManager.get_state, hb, Nat.pos_iff_ne_zero.mp hl, hd]

theorem get_state_fail_soft_witness :
    StateManager.get_state (fun _ => (none : Option Nat)) (fun _ => some [123]) "k" = none :=
  (get_state_fail_soft (fun _ => (none : Option Nat)) (fun _ => some [123]) "k").2.2
    [123] rfl rfl

/-! ### Lemmas about `pyStrip` -/

theorem stripL_cons_space (l : List Char) : stripL (' ' :: l) = stripL l := by
  simp [stripL, List.dropWhile_cons, isPySpace]

theorem stripR_append_space (l : List Char) : stripR (l ++ [' ']) = stripR l := by
  simp [stripR, List.reverse_append, List.dropWhile_cons, isPySpace]

theorem stripRL_append_space (l : List Char) :
    stripR (stripL (l ++ [' '])) = stripR (stripL l) := by
  induction l with
  | nil => rfl
  | cons a l' ih =>
    by_cases ha : isPySpace a
    · simpa [stripL, List.dropWhile_cons, ha] using ih
    · simp only [stripL, List.cons_append, List.dropWhile_cons, ha, Bool.false_eq_true,
        if_false]
      exact stripR_append_space (a :: l')

theorem pyStrip_pad (t : String) : pyStrip (" " ++ t ++ " ") = pyStrip t := by
  have hdata : (" " ++ t ++ " ").data = ' ' :: (t.data ++ [' ']) := by
    simp [String.data_append]
  unfold pyStrip
  rw [hdata, stripL_cons_space, stripRL_append_space]

theorem pad_ne_empty (t : String) : " " ++ t ++ " " ≠ "" := by
  intro h
  have h' := congrArg String.data h
  simp [String.data_append] at h'

/-- The fresh task record written by a successful `create_task` whose counter
started at `n`. -/
def freshTask (clock : Nat → Nat) (n : Nat)
    (tid title description assignee creator : String) : Task :=
  { task_id := sanitize_string tid,
    title := sanitize_string title,
    description := sanitize_string description,
    assignee := sanitize_string assignee,
    creator := sanitize_string creator,
    status := TASK_STATUS_CREATED,
    created_at := clock n,
    updated_at := clock (n + 1),
    updated_by := none,
    documents := [] }

/-- Inversion of a successful `create_task`: validation passed, the key was
free, and the result state is the single put of the fresh task. -/
theorem create_task_success_elim (clock : Nat → Nat) (s : EngineState)
    (tid title description assignee creator : String)
    (h : (create_task clock s tid title description assignee creator).1.success = true) :
    validate_task_data tid title description assignee creator = none ∧
    lget s.ledger (create_task_key (sanitize_string tid)) = none ∧
    (create_task clock s tid title description assignee creator).2 =
      put_state { s with counter := s.counter + 2 } (create_task_key (sanitize_string tid))
        (freshTask clock s.counter tid title description assignee creator) := by
  cases hv : validate_task_data tid title description assignee creator with
  | some err => simp [create_task, hv, format_response] at h
  | none =>
    cases hl : lget s.ledger (create_task_key (sanitize_string tid)) with
    | some t => simp [create_task, hv, hl, format_response] at h
    | none => exact ⟨rfl, rfl, by simp [create_task, hv, hl, freshTask]⟩

/-- C2: creating a task whose derived key already holds a record (with
validation-passing fields) fails with the duplicate-task error, performs no
StateStore write, and leaves both the state and the stored record unchanged. -/
theorem create_task_duplicate_rejected (clock : Nat → Nat) (s : EngineState)
    (tid title description assignee creator : String) (task : Task)
    (hv : validate_task_data tid title description assignee creator = none)
    (hex : lget s.ledger (create_task_key (sanitize_string tid)) = some task) :
    (create_task clock s tid title description assignee creator).1.success = false ∧
    (create_task clock s tid title description assignee creator).1.error =
      some ("Задача с ID " ++ sanitize_string tid ++ " уже существует") ∧
    (create_task clock s tid title description assignee creator).2 = s ∧
    lget (create_task clock s tid title description assignee creator).2.ledger
      (create_task_key (sanitize_string tid)) = some task := by
  simp [create_task, hv, hex, format_response]

theorem create_task_duplicate_rejected_witness :
    validate_task_data "T1" "t" "d" "a" "c" = none ∧
    lget stateT1.ledger (create_task_key (sanitize_string "T1")) = some taskT1 ∧
    ((create_task (fun n => n) stateT1 "T1" "t" "d" "a" "c").1.success = false ∧
     (create_task (fun n => n) stateT1 "T1" "t" "d" "a" "c").1.error =
       some ("Задача с ID " ++ sanitize_string "T1" ++ " уже существует") ∧
     (create_task (fun n => n) stateT1 "T1" "t" "d" "a" "c").2 = stateT1 ∧
     lget (create_task (fun n => n) stateT1 "T1" "t" "d" "a" "c").2.ledger
       (create_task_key (sanitize_string "T1")) = some taskT1) :=
  ⟨rfl, rfl, create_task_duplicate_rejected (fun n => n) stateT1 "T1" "t" "d" "a" "c"
    taskT1 rfl rfl⟩

/-- C10: engine arguments are sanitised (stripped) before key derivation, so
ids differing only in surrounding whitespace address the same record: after a
successful `create_task tid …`, creating `" " ++ tid ++ " "` fails as a
duplicate without changing the state, and `get_task` on the padded id gives
exactly the same response as on `tid` itself, successfully. -/
theorem whitespace_insensitive_addressing (clock clock2 clock3 : Nat → Nat)
    (s : EngineState) (tid title description assignee creator : String)
    (h : (create_task clock s tid title description assignee creator).1.success = true) :
    (create_task clock2 (create_task clock s tid title description assignee creator).2
        (" " ++ tid ++ " ") title description assignee creator).1.success = false ∧
    (create_task clock2 (create_task clock s tid title description assignee creator).2
        (" " ++ tid ++ " ") title description assignee creator).1.error =
      some ("Задача с ID " ++ sanitize_string tid ++ " уже существует") ∧
    (create_task clock2 (create_task clock s tid title description assignee creator).2
        (" " ++ tid ++ " ") title description assignee creator).2 =
      (create_task clock s tid title description assignee creator).2 ∧
    (get_task clock3 (create_task clock s tid title description assignee creator).2
        (" " ++ tid ++ " ")) =
      (get_task clock3 (create_task clock s tid title description assignee creator).2 tid) ∧
    (get_task clock3 (create_task clock s tid title description assignee creator).2
        (" " ++ tid ++ " ")).1.success = true := by
  obtain ⟨hv, hl, hs⟩ := create_task_success_elim clock s tid title description assignee creator h
  have hsan : sanitize_string (" " ++ tid ++ " ") = sanitize_string tid := by
    simp only [sanitize_string]
    exact pyStrip_pad tid
  have htid : pyStrip tid ≠ "" := by
    intro he
    simp [validate_task_data, he] at hv
  have htidne : tid ≠ "" := by
    intro he
    rw [he] at htid
    exact htid rfl
  have hv2 : validate_task_data (" " ++ tid ++ " ") title description assignee creator =
      none := by
    have : pyStrip (" " ++ tid ++ " ") ≠ "" := by
      rw [pyStrip_pad]
      exact htid
    simp only [validate_task_data, this, if_false] at hv ⊢
    simpa [validate_task_data, htid] using hv
  have hfound : lget (create_task clock s tid title description assignee creator).2.ledger
      (create_task_key (sanitize_string tid)) =
      some (freshTask clock s.counter tid title description assignee creator) := by
    rw [hs]
    simp [put_state, lget]
  have hdup := create_task_duplicate_rejected clock2
    (create_task clock s tid title description assignee creator).2
    (" " ++ tid ++ " ") title description assignee creator _ hv2 (by rw [hsan]; exact hfound)
  refine ⟨hdup.1, by rw [hdup.2.1, hsan], hdup.2.2.1, ?_, ?_⟩
  · simp only [get_task, pad_ne_empty tid, htidne, if_false, hsan]
  · simp [get_task, pad_ne_empty tid, hsan, hfound, format_response]

theorem whitespace_insensitive_addressing_witness :
    (create_task (fun n => n) initState "T1" "t" "d" "a" "c").1.success = true ∧
    ((create_task (fun n => n) (create_task (fun n => n) initState "T1" "t" "d" "a" "c").2
        " T1 " "t" "d" "a" "c").1.success = false ∧
     (create_task (fun n => n) (create_task (fun n => n) initState "T1" "t" "d" "a" "c").2
        " T1 " "t" "d" "a" "c").1.error =
       some ("Задача с ID " ++ sanitize_string "T1" ++ " уже существует") ∧
     (create_task (fun n => n) (create_task (fun n => n) initState "T1" "t" "d" "a" "c").2
        " T1 " "t" "d" "a" "c").2 =
       (create_task (fun n => n) initState "T1" "t" "d" "a" "c").2 ∧
     (get_task (fun n => n) (create_task (fun n => n) initState "T1" "t" "d" "a" "c").2
        " T1 ") =
       (get_task (fun n => n) (create_task (fun n => n) initState "T1" "t" "d" "a" "c").2
        "T1") ∧
     (get_task (fun n => n) (create_task (fun n => n) initState "T1" "t" "d" "a" "c").2
        " T1 ").1.success = true) :=
  ⟨rfl, whitespace_insensitive_addressing (fun n => n) (fun n => n) (fun n => n)
    initState "T1" "t" "d" "a" "c" rfl⟩

/-! ### C5 : version accumulation and full version listing -/

def idClock : Nat → Nat := fun n => n

/-- The state after `CreateTask("T1",…)`, `AddDocumentVersion("T1","D1","1.0","h1","u1")`,
`AddDocumentVersion("T1","D1","2.0","h2","u2")` under the identity clock. -/
def scenState : EngineState :=
  (add_document_version idClock
    (add_document_version idClock
      (create_task idClock initState "T1" "t" "d" "a" "c").2
      "T1" "D1" "1.0" "h1" "u1" none).2
    "T1" "D1" "2.0" "h2" "u2" none).2

/-- A small state with one task holding one document with one version. -/
def docD1 : Document :=
  { document_id := "D1", created_at := 3,
    versions := [{ document_id := "D1", version := "1.0", content_hash := "h1",
                   uploaded_by := "u1", uploaded_at := 2, metadata := [] }] }

def taskT1D : Task := { taskT1 with documents := [docD1] }

def stateT1D : EngineState :=
  { ledger := [("TASK_T1", taskT1D)], log := [("TASK_T1", taskT1D)], counter := 5 }

/-- C5: `get_document_versions` returns the document's full stored `versions`
sequence together with `total_versions` equal to its length and leaves the
state untouched; and in the concrete two-upload scenario of the spec it
returns exactly the two versions in insertion order 1.0 then 2.0 with
`total_versions = 2`. -/
theorem get_document_versions_full_ordered :
    (∀ (clock : Nat → Nat) (s : EngineState) (tid did : String) (task : Task)
      (doc : Document), tid ≠ "" → did ≠ "" →
      lget s.ledger (create_task_key (sanitize_string tid)) = some task →
      findDoc task.documents (sanitize_string did) = some doc →
      (get_document_versions clock s tid did).1 =
        format_response (clock s.counter) true
          (some (.docVersions (sanitize_string tid) (sanitize_string did)
            doc.versions doc.versions.length)) none ∧
      (get_document_versions clock s tid did).2 = s) ∧
    ((get_document_versions idClock scenState "T1" "D1").1.success = true ∧
     (get_document_versions idClock scenState "T1" "D1").1.data =
       some (.docVersions "T1" "D1"
         [{ document_id := "D1", version := "1.0", content_hash := "h1",
            uploaded_by := "u1", uploaded_at := 2, metadata := [] },
          { document_id := "D1", version := "2.0", content_hash := "h2",
            uploaded_by := "u2", uploaded_at := 5, metadata := [] }] 2)) := by
  constructor
  · intro clock s tid did task doc h0 h1 h2 h3
    simp [get_document_versions, h0, h1, h2, h3]
  · exact ⟨rfl, rfl⟩

theorem get_document_versions_full_ordered_witness :
    (("T1" : String) ≠ "" ∧ ("D1" : String) ≠ "" ∧
     lget stateT1D.ledger (create_task_key (sanitize_string "T1")) = some taskT1D ∧
     findDoc taskT1D.documents (sanitize_string "D1") = some docD1) ∧
    ((get_document_versions idClock stateT1D "T1" "D1").1 =
       format_response 5 true
         (some (.docVersions "T1" "D1" docD1.versions docD1.versions.length)) none ∧
     (get_document_versions idClock stateT1D "T1" "D1").2 = stateT1D) :=
  ⟨⟨by decide, by decide, rfl, rfl⟩,
    get_document_versions_full_ordered.1 idClock stateT1D "T1" "D1" taskT1D docD1
      (by decide) (by decide) rfl rfl⟩

/-! ### C4 : the dispatcher -/

/-- C4 (amended): the dispatcher is total and always yields an envelope; the
four functions `createTask`, `updateTaskStatus`, `getDocumentVersions` and
`getTask` have exact expected argument counts while `addDocumentVersion`
requires at least five arguments (a sixth is metadata, further extras are
ignored); on an arity violation a structured error is returned with the
engine never invoked (state unchanged); an unrecognized function name yields
the unknown-function error envelope. -/
theorem invoke_chaincode_arity (clock : Nat → Nat) (parseMeta : String → Meta)
    (s : EngineState) (args : List String) :
    (args.length ≠ 5 →
      invoke_chaincode clock parseMeta s "createTask" args =
        (format_response (clock s.counter) false none
          (some "Неверное количество аргументов. Ожидается: task_id, title, description, assignee, creator"), s)) ∧
    (args.length ≠ 3 →
      invoke_chaincode clock parseMeta s "updateTaskStatus" args =
        (format_response (clock s.counter) false none
          (some "Неверное количество аргументов. Ожидается: task_id, new_status, updated_by"), s)) ∧
    (args.length < 5 →
      invoke_chaincode clock parseMeta s "addDocumentVersion" args =
        (format_response (clock s.counter) false none
          (some "Неверное количество аргументов. Ожидается: task_id, document_id, version, content_hash, uploaded_by, [metadata_json]"), s)) ∧
    (args.length ≠ 2 →
      invoke_chaincode clock parseMeta s "getDocumentVersions" args =
        (format_response (clock s.counter) false none
          (some "Неверное количество аргументов. Ожидается: task_id, document_id"), s)) ∧
    (args.length ≠ 1 →
      invoke_chaincode clock parseMeta s "getTask" args =
        (format_response (clock s.counter) false none
          (some "Неверное количество аргументов. Ожидается: task_id"), s)) ∧
    (∀ f : String, f ≠ "createTask" → f ≠ "updateTaskStatus" →
      f ≠ "addDocumentVersion" → f ≠ "getDocumentVersions" → f ≠ "getTask" →
      invoke_chaincode clock parseMeta s f args =
        (format_response (clock s.counter) false none
          (some ("Неизвестная функция: " ++ f)), s)) := by
  refine ⟨?_, ?_, ?_, ?_, ?_, ?_⟩
  · intro h
    simp [invoke_chaincode, h]
  · intro h
    simp [invoke_chaincode, h]
  · intro h
    simp [invoke_chaincode, h, Nat.not_lt.mpr, Nat.not_lt]
  · intro h
    simp [invoke_chaincode, h]
  · intro h
    simp [invoke_chaincode, h]
  · intro f h1 h2 h3 h4 h5
    simp [invoke_chaincode, h1, h2, h3, h4, h5]

theorem invoke_chaincode_arity_witness :
    ((["x"] : List String).length ≠ 5) ∧
    invoke_chaincode idClock (fun _ => []) initState "createTask" ["x"] =
      (format_response 0 false none
        (some "Неверное количество аргументов. Ожидается: task_id, title, description, assignee, creator"),
       initState) :=
  ⟨by decide,
    (invoke_chaincode_arity idClock (fun _ => []) initState ["x"]).1 (by decide)⟩

/-- C4 counterexample: `addDocumentVersion` has no exact expected argument
count — the dispatcher hands both a 5-argument and a 7-argument call to the
engine (both produce the engine's own task-not-found error, not the
dispatcher's arity error). -/
theorem invoke_chaincode_not_exact_arity :
    ((["T1", "D1", "1.0", "h1", "u1"] : List String).length = 5 ∧
     (["T1", "D1", "1.0", "h1", "u1", "m", "x"] : List String).length = 7) ∧
    (invoke_chaincode idClock (fun _ => []) initState "addDocumentVersion"
      ["T1", "D1", "1.0", "h1", "u1"]).1.error = some "Задача с ID T1 не найдена" ∧
    (invoke_chaincode idClock (fun _ => []) initState "addDocumentVersion"
      ["T1", "D1", "1.0", "h1", "u1", "m", "x"]).1.error = some "Задача с ID T1 не найдена" ∧
    (some "Задача с ID T1 не найдена" : Option String) ≠
      some "Неверное количество аргументов. Ожидается: task_id, document_id, version, content_hash, uploaded_by, [metadata_json]" :=
  ⟨⟨rfl, rfl⟩, rfl, rfl, by decide⟩

/-! ### C6 : what a successful creation stores -/

/-- C6 counterexample: under the (monotone) identity clock a successful
`create_task` stores `created_at = 0` but `updated_at = 1` — the two
`utcnow()` calls are distinct, so `created_at = updated_at` does not hold. -/
theorem create_task_timestamps_differ :
    Monotone (fun n : Nat => n) ∧
    (create_task (fun n => n) initState "T1" "t" "d" "a" "c").1.success = true ∧
    lget (create_task (fun n => n) initState "T1" "t" "d" "a" "c").2.ledger
      "TASK_T1" = some taskT1 ∧
    ¬ (taskT1.created_at = taskT1.updated_at) :=
  ⟨fun _ _ h => h, rfl, rfl, by decide⟩

/-- C6 (amended): under a monotone clock, a successful `create_task` (valid
fields, free key) stores a task with status CREATED, `created_at ≤
updated_at` (equality is not guaranteed: the code reads the clock twice) and
an empty documents list, and performs exactly one StateStore write. -/
theorem create_task_success_spec (clock : Nat → Nat) (hm : Monotone clock)
    (s : EngineState) (tid title description assignee creator : String)
    (hv : validate_task_data tid title description assignee creator = none)
    (hl : lget s.ledger (create_task_key (sanitize_string tid)) = none) :
    (create_task clock s tid title description assignee creator).1.success = true ∧
    (∃ t : Task,
      lget (create_task clock s tid title description assignee creator).2.ledger
        (create_task_key (sanitize_string tid)) = some t ∧
      t.status = TASK_STATUS_CREATED ∧ t.created_at ≤ t.updated_at ∧
      t.documents = []) ∧
    (create_task clock s tid title description assignee creator).2.log =
      s.log ++ [(create_task_key (sanitize_string tid),
        freshTask clock s.counter tid title description assignee creator)] := by
  refine ⟨?_, ?_, ?_⟩
  · simp [create_task, hv, hl, format_response]
  · refine ⟨freshTask clock s.counter tid title description assignee creator, ?_, rfl,
      hm (Nat.le_succ s.counter), rfl⟩
    simp [create_task, hv, hl, put_state, lget, freshTask]
  · simp [create_task, hv, hl, put_state, freshTask]

theorem create_task_success_spec_witness :
    (Monotone (fun n : Nat => n) ∧
     validate_task_data "T1" "t" "d" "a" "c" = none ∧
     lget initState.ledger (create_task_key (sanitize_string "T1")) = none) ∧
    ((create_task (fun n => n) initState "T1" "t" "d" "a" "c").1.success = true ∧
     (∃ t : Task,
       lget (create_task (fun n => n) initState "T1" "t" "d" "a" "c").2.ledger
         (create_task_key (sanitize_string "T1")) = some t ∧
       t.status = TASK_STATUS_CREATED ∧ t.created_at ≤ t.updated_at ∧
       t.documents = []) ∧
     (create_task (fun n => n) initState "T1" "t" "d" "a" "c").2.log =
       initState.log ++ [(create_task_key (sanitize_string "T1"),
         freshTask (fun n => n) initState.counter "T1" "t" "d" "a" "c")]) :=
  ⟨⟨fun _ _ h => h, rfl, rfl⟩,
    create_task_success_spec (fun n => n) (fun _ _ h => h) initState
      "T1" "t" "d" "a" "c" rfl rfl⟩

/-! ### C7 : timestamp monotonicity over reachable states -/

/-- Invariant: every visible stored task has `created_at ≤ updated_at`, and
its `updated_at` is no later than the clock at the current counter. -/
def TimeInv (clock : Nat → Nat) (s : EngineState) : Prop :=
  ∀ key task, lget s.ledger key = some task →
    task.created_at ≤ task.updated_at ∧ task.updated_at ≤ clock s.counter

theorem lget_cons (k : String) (v : Task) (rest : List (String × Task)) (key : String) :
    lget ((k, v) :: rest) key = if k = key then some v else lget rest key := rfl

/-- The step triple for an operation that leaves the state unchanged. -/
theorem step_refl (clock : Nat → Nat) (s : EngineState) (hinv : TimeInv clock s) :
    TimeInv clock s ∧ s.counter ≤ s.counter ∧
    ∀ key (t t' : Task), lget s.ledger key = some t → lget s.ledger key = some t' →
      t.updated_at ≤ t'.updated_at := by
  refine ⟨hinv, le_refl _, ?_⟩
  intro key t t' h1 h2
  rw [h1] at h2
  injection h2 with h3
  rw [h3]

/-- The step triple for an operation whose effect is a single `put_state` of
`task'` at key `k` with the counter advanced to `n'`. -/
theorem put_step (clock : Nat → Nat) (hm : Monotone clock) (s : EngineState)
    (hinv : TimeInv clock s) (k : String) (task' : Task) (n' : Nat)
    (hc : s.counter ≤ n')
    (hca : task'.created_at ≤ task'.updated_at)
    (hub : task'.updated_at ≤ clock n')
    (hold : ∀ t : Task, lget s.ledger k = some t → t.updated_at ≤ task'.updated_at) :
    TimeInv clock (put_state { s with counter := n' } k task') ∧
    s.counter ≤ (put_state { s with counter := n' } k task').counter ∧
    ∀ key t t', lget s.ledger key = some t →
      lget (put_state { s with counter := n' } k task').ledger key = some t' →
      t.updated_at ≤ t'.updated_at := by
  refine ⟨?_, hc, ?_⟩
  · intro key task h
    simp only [put_state] at h
    rw [lget_cons] at h
    by_cases hk : k = key
    · rw [if_pos hk] at h
      injection h with h'
      rw [← h']
      exact ⟨hca, hub⟩
    · rw [if_neg hk] at h
      obtain ⟨h1, h2⟩ := hinv key task h
      exact ⟨h1, le_trans h2 (hm hc)⟩
  · intro key t t' h1 h2
    simp only [put_state] at h2
    rw [lget_cons] at h2
    by_cases hk : k = key
    · rw [if_pos hk] at h2
      injection h2 with h'
      rw [← h']
      exact hold t (hk ▸ h1)
    · rw [if_neg hk] at h2
      rw [h1] at h2
      injection h2 with h'
      rw [h']

/-- The task written back by `update_task_status`. -/
def statusTask (task : Task) (new_status updated_by : String) (now : Nat) : Task :=
  { task with status := new_status, updated_at := now, updated_by := some updated_by }

/-- The task written back by `add_document_version`. -/
def bumpTask (task : Task) (docs : List Document) (now : Nat) : Task :=
  { task with documents := docs, updated_at := now }

theorem step_create (clock : Nat → Nat) (hm : Monotone clock) (s : EngineState)
    (hinv : TimeInv clock s) (a b c d e : String) :
    TimeInv clock (create_task clock s a b c d e).2 ∧
    s.counter ≤ (create_task clock s a b c d e).2.counter ∧
    ∀ key t t', lget s.ledger key = some t →
      lget (create_task clock s a b c d e).2.ledger key = some t' →
      t.updated_at ≤ t'.updated_at := by
  cases hv : validate_task_data a b c d e with
  | some err =>
    have h2 : (create_task clock s a b c d e).2 = s := by simp [create_task, hv]
    rw [h2]
    exact step_refl clock s hinv
  | none =>
    cases hl : lget s.ledger (create_task_key (sanitize_string a)) with
    | some t0 =>
      have h2 : (create_task clock s a b c d e).2 = s := by simp [create_task, hv, hl]
      rw [h2]
      exact step_refl clock s hinv
    | none =>
      have h2 : (create_task clock s a b c d e).2 =
          put_state { s with counter := s.counter + 2 }
            (create_task_key (sanitize_string a))
            (freshTask clock s.counter a b c d e) := by
        simp [create_task, hv, hl, freshTask]
      rw [h2]
      exact put_step clock hm s hinv _ _ _ (Nat.le_add_right _ 2)
        (hm (Nat.le_succ _)) (hm (Nat.le_succ (s.counter + 1)))
        (fun t ht => by rw [hl] at ht; cases ht)

theorem step_update (clock : Nat → Nat) (hm : Monotone clock) (s : EngineState)
    (hinv : TimeInv clock s) (a b c : String) :
    TimeInv clock (update_task_status clock s a b c).2 ∧
    s.counter ≤ (update_task_status clock s a b c).2.counter ∧
    ∀ key t t', lget s.ledger key = some t →
      lget (update_task_status clock s a b c).2.ledger key = some t' →
      t.updated_at ≤ t'.updated_at := by
  by_cases hcond : (a = "" ∨ b = "" ∨ c = "")
  · have h2 : (update_task_status clock s a b c).2 = s := by
      simp [update_task_status, hcond]
    rw [h2]
    exact step_refl clock s hinv
  · cases hst : validate_status (pyUpper (sanitize_string b)) with
    | false =>
      have h2 : (update_task_status clock s a b c).2 = s := by
        simp [update_task_status, hcond, hst]
      rw [h2]
      exact step_refl clock s hinv
    | true =>
      cases hl : lget s.ledger (create_task_key (sanitize_string a)) with
      | none =>
        have h2 : (update_task_status clock s a b c).2 = s := by
          simp [update_task_status, hcond, hst, hl]
        rw [h2]
        exact step_refl clock s hinv
      | some task =>
        have h2 : (update_task_status clock s a b c).2 =
            put_state { s with counter := s.counter + 1 }
              (create_task_key (sanitize_string a))
              (statusTask task (pyUpper (sanitize_string b)) (sanitize_string c)
                (clock s.counter)) := by
          simp [update_task_status, hcond, hst, hl, statusTask]
        rw [h2]
        obtain ⟨hct, hub⟩ := hinv _ task hl
        exact put_step clock hm s hinv _ _ _ (Nat.le_succ _)
          (le_trans hct hub) (hm (Nat.le_succ _))
          (fun t ht => by
            rw [hl] at ht
            injection ht with ht'
            rw [← ht']
            exact hub)

theorem step_add (clock : Nat → Nat) (hm : Monotone clock) (s : EngineState)
    (hinv : TimeInv clock s) (a b c d e : String) (m : Option Meta) :
    TimeInv clock (add_document_version clock s a b c d e m).2 ∧
    s.counter ≤ (add_document_version clock s a b c d e m).2.counter ∧
    ∀ key t t', lget s.ledger key = some t →
      lget (add_document_version clock s a b c d e m).2.ledger key = some t' →
      t.updated_at ≤ t'.updated_at := by
  cases hv : validate_document_version_data c d e with
  | some err =>
    have h2 : (add_document_version clock s a b c d e m).2 = s := by
      simp [add_document_version, hv]
    rw [h2]
    exact step_refl clock s hinv
  | none =>
    cases hl : lget s.ledger (create_task_key (sanitize_string a)) with
    | none =>
      have h2 : (add_document_version clock s a b c d e m).2 = s := by
        simp [add_document_version, hv, hl]
      rw [h2]
      exact step_refl clock s hinv
    | some task =>
      obtain ⟨hct, hub⟩ := hinv _ task hl
      cases hd : addVersionToDocs task.documents (sanitize_string b)
          { document_id := sanitize_string b, version := sanitize_string c,
            content_hash := sanitize_string d, uploaded_by := sanitize_string e,
            uploaded_at := clock s.counter, metadata := m.getD [] } with
      | some docs' =>
        have h2 : (add_document_version clock s a b c d e m).2 =
            put_state { s with counter := s.counter + 2 }
              (create_task_key (sanitize_string a))
              (bumpTask task docs' (clock (s.counter + 1))) := by
          simp [add_document_version, hv, hl, hd, bumpTask]
        rw [h2]
        exact put_step clock hm s hinv _ _ _ (Nat.le_add_right _ 2)
          (le_trans hct (le_trans hub (hm (Nat.le_succ s.counter))))
          (hm (Nat.le_succ (s.counter + 1)))
          (fun t ht => by
            rw [hl] at ht
            injection ht with ht'
            rw [← ht']
            exact le_trans hub (hm (Nat.le_succ s.counter)))
      | none =>
        have h2 : (add_document_version clock s a b c d e m).2 =
            put_state { s with counter := s.counter + 3 }
              (create_task_key (sanitize_string a))
              (bumpTask task
                (task.documents ++
                  [{ document_id := sanitize_string b,
                     created_at := clock (s.counter + 1),
                     versions := [{ document_id := sanitize_string b,
                                    version := sanitize_string c,
                                    content_hash := sanitize_string d,
                                    uploaded_by := sanitize_string e,
                                    uploaded_at := clock s.counter,
                                    metadata := m.getD [] }] }])
                (clock (s.counter + 2))) := by
          simp [add_document_version, hv, hl, hd, bumpTask]
        rw [h2]
        exact put_step clock hm s hinv _ _ _ (Nat.le_add_right _ 3)
          (le_trans hct (le_trans hub (hm (Nat.le_add_right s.counter 2))))
          (hm (Nat.le_succ (s.counter + 2)))
          (fun t ht => by
            rw [hl] at ht
            injection ht with ht'
            rw [← ht']
            exact le_trans hub (hm (Nat.le_add_right s.counter 2)))

theorem get_document_versions_state (clock : Nat → Nat) (s : EngineState) (a b : String) :
    (get_document_versions clock s a b).2 = s := by
  by_cases h : (a = "" ∨ b = "")
  · simp [get_document_versions, h]
  · cases hl : lget s.ledger (create_task_key (sanitize_string a)) with
    | none => simp [get_document_versions, h, hl]
    | some task =>
      cases hd : findDoc task.documents (sanitize_string b) with
      | none => simp [get_document_versions, h, hl, hd]
      | some doc => simp [get_document_versions, h, hl, hd]

theorem get_task_state (clock : Nat → Nat) (s : EngineState) (a : String) :
    (get_task clock s a).2 = s := by
  by_cases h : a = ""
  · simp [get_task, h]
  · cases hl : lget s.ledger (create_task_key (sanitize_string a)) with
    | none => simp [get_task, h, hl]
    | some task => simp [get_task, h, hl]

/-- The step triple for an arbitrary engine invocation. -/
theorem step_any (clock : Nat → Nat) (hm : Monotone clock) (s : EngineState)
    (hinv : TimeInv clock s) (op : Op) :
    TimeInv clock (applyOp clock s op) ∧
    s.counter ≤ (applyOp clock s op).counter ∧
    ∀ key t t', lget s.ledger key = some t →
      lget (applyOp clock s op).ledger key = some t' →
      t.updated_at ≤ t'.updated_at := by
  cases op with
  | createTask a b c d e => exact step_create clock hm s hinv a b c d e
  | updateTaskStatus a b c => exact step_update clock hm s hinv a b c
  | addDocumentVersion a b c d e m => exact step_add clock hm s hinv a b c d e m
  | getDocumentVersions a b =>
    have h2 : applyOp clock s (.getDocumentVersions a b) = s :=
      get_document_versions_state clock s a b
    rw [h2]
    exact step_refl clock s hinv
  | getTask a =>
    have h2 : applyOp clock s (.getTask a) = s := get_task_state clock s a
    rw [h2]
    exact step_refl clock s hinv

theorem runOps_inv (clock : Nat → Nat) (hm : Monotone clock) :
    ∀ (ops : List Op) (s : EngineState), TimeInv clock s →
      TimeInv clock (runOps clock s ops) := by
  intro ops
  induction ops with
  | nil => intro s hinv; exact hinv
  | cons op rest ih =>
    intro s hinv
    exact ih (applyOp clock s op) (step_any clock hm s hinv op).1

/-- C7: in every state reachable by a sequence of engine operations from the
empty ledger under a monotone clock, each stored task satisfies
`updated_at ≥ created_at`; and any further engine operation (in particular
the mutations `update_task_status` and `add_document_version`) never
decreases the stored `updated_at` of any task. -/
theorem task_timestamps_monotone (clock : Nat → Nat) (hm : Monotone clock)
    (ops : List Op) :
    (∀ key task, lget (runOps clock initState ops).ledger key = some task →
      task.created_at ≤ task.updated_at) ∧
    (∀ (op : Op) key t t',
      lget (runOps clock initState ops).ledger key = some t →
      lget (applyOp clock (runOps clock initState ops) op).ledger key = some t' →
      t.updated_at ≤ t'.updated_at) := by
  have hinit : TimeInv clock initState := by
    intro key task h
    simp [initState, lget] at h
  have hrun := runOps_inv clock hm ops initState hinit
  exact ⟨fun key task h => (hrun key task h).1,
    fun op key t t' h1 h2 =>
      (step_any clock hm _ hrun op).2.2 key t t' h1 h2⟩

theorem task_timestamps_monotone_witness :
    Monotone (fun n : Nat => n) ∧
    lget (runOps (fun n => n) initState
      [Op.createTask "T1" "t" "d" "a" "c"]).ledger "TASK_T1" = some taskT1 ∧
    taskT1.created_at ≤ taskT1.updated_at :=
  ⟨fun _ _ h => h, rfl,
    (task_timestamps_monotone (fun n => n) (fun _ _ h => h)
      [Op.createTask "T1" "t" "d" "a" "c"]).1 "TASK_T1" taskT1 rfl⟩

end NPA
